import Mathlib

/-!
Verification of the discord user-bot interception layer.

This file gives a shallow embedding of the patch/interception subsystem of
the repository (the REST route matcher and patch lookup, the REST request
and resolve-request wrappers, the user-agent resolve wrapper, and the
gateway inbound/outbound packet pipelines), together with theorems about
the embedded definitions.

Modelling conventions:
- JS strings are `List Char` (abbreviated `Str`), so every operation is
  executable and provable by `decide`.
- JS plain objects are association lists, observed through `objGet`, which
  returns the value of the *last* binding of a key.  A JS property
  assignment is modelled by appending a binding (`objSet`); this is
  observationally identical to JS object semantics under `objGet`.
- Code that can throw returns `Except JsErr α`; an uncaught JS exception is
  an `Except.error`.
- Regular expressions are embedded by their matching semantics on
  `List Char` (see the route matcher section).
-/

abbrev Str := List Char

/-- A thrown JS exception: either a runtime `TypeError` or a user-thrown
value (identified by an opaque code). -/
inductive JsErr where
  | typeError (msg : String)
  | thrown (code : Int)
deriving DecidableEq, Repr

instance {ε α : Type} [DecidableEq ε] [DecidableEq α] : DecidableEq (Except ε α) := fun x y =>
  match x, y with
  | .ok a, .ok b =>
    if h : a = b then isTrue (by rw [h])
    else isFalse (fun hc => h (Except.ok.inj hc))
  | .error a, .error b =>
    if h : a = b then isTrue (by rw [h])
    else isFalse (fun hc => h (Except.error.inj hc))
  | .ok _, .error _ => isFalse (fun hc => Except.noConfusion hc)
  | .error _, .ok _ => isFalse (fun hc => Except.noConfusion hc)

/-- JS object property read: the value of the last binding of key `k`
(later assignments shadow earlier ones). -/
def objGet {α : Type} (o : List (Str × α)) (k : Str) : Option α :=
  (o.reverse.find? (fun e => e.1 == k)).map (fun e => e.2)

/-- JS object property write `o[k] = v`, observed through `objGet`:
append a binding, which shadows any earlier binding of `k`. -/
def objSet {α : Type} (o : List (Str × α)) (k : Str) (v : α) : List (Str × α) :=
  o ++ [(k, v)]

/-- Model of `String.prototype.split(sep)` (single-character separator, no limit):
`splitChar ':' "a:b:c" = ["a","b","c"]`, `splitChar ':' "" = [""]`. -/
def splitChar (sep : Char) : Str → List Str
  | [] => [[]]
  | c :: cs =>
    if c = sep then [] :: splitChar sep cs
    else
      match splitChar sep cs with
      | f :: r => (c :: f) :: r
      | [] => [[c]]

/-- Model of `String.prototype.split(sep, limit)`: the full split truncated to the
first `limit` fields. -/
def splitCharLimit (sep : Char) (limit : Nat) (s : Str) : List Str :=
  (splitChar sep s).take limit

/-- Model of `String.prototype.trimStart()`. -/
def trimStart (s : Str) : Str := s.dropWhile Char.isWhitespace

/-- One step of the header-list normalization in `wrapResolveRequest`
(patch-user-agent, lines 48-50): `header.split(':', 2)` followed by the
destructuring `([name, val]) => [name, val.trimStart()]`.  When the header
contains no colon, `val` is `undefined` and `val.trimStart()` throws a
`TypeError`. -/
def splitHeader (h : Str) : Except JsErr (Str × Str) :=
  match splitCharLimit ':' 2 h with
  | [n, v] => .ok (n, trimStart v)
  | _ => .error (.typeError "Cannot read properties of undefined (reading 'trimStart')")

/-- Model of `Object.fromEntries` under the `objGet` observation model: the
resulting object maps each key to the value of its last occurrence, which
is exactly what `objGet` reads off the plain pair list. -/
def jsFromEntries (l : List (Str × Str)) : List (Str × Str) := l

/-- The header-list normalization expression of `wrapResolveRequest`
(patch-user-agent, lines 48-50):
`Object.fromEntries(headers.map(h => h.split(':', 2)).map(([name, val]) => [name, val.trimStart()]))`. -/
def normalizeHeaders (hs : List Str) : Except JsErr (List (Str × Str)) := do
  let pairs ← hs.mapM splitHeader
  pure (jsFromEntries pairs)

/-! ## Route matcher (patch-rest `testParameterizedMatch`)

The source builds a regular expression from the route template `key`:
the template is escaped (`escapeRegExp`), every escaped `\x7b:[a-z]+\x7d`
placeholder is replaced by `[^/]+`, the result is anchored at the start
with `^` (and not at the end), and tested against the concrete `route`.
We embed this by tokenizing the template into literal characters and
placeholder tokens and giving the matching semantics of the resulting
regex directly (`matchTokens`): anchored at the start, each placeholder
matching one or more non-`/` characters, and the match allowed to end
before the end of `route` (a prefix-style match, since there is no `$`
anchor). -/

/-- The `\x7b` character. -/
def lbrace : Char := Char.ofNat 123

/-- The `\x7d` character. -/
def rbrace : Char := Char.ofNat 125

/-- Lowercase ASCII letter, the `[a-z]` character class. -/
def isLowerAZ (c : Char) : Bool := 'a' ≤ c && c ≤ 'z'

/-- If `s` begins with a `\x7b:[a-z]+\x7d` placeholder, return the
remainder of `s` after it; otherwise `none`. -/
def placeholderTail (s : Str) : Option Str :=
  match s with
  | c1 :: c2 :: rest =>
    if c1 = lbrace ∧ c2 = ':' then
      let letters := rest.takeWhile isLowerAZ
      match rest.drop letters.length with
      | c3 :: tail => if 0 < letters.length ∧ c3 = rbrace then some tail else none
      | [] => none
    else none
  | _ => none

/-- Model of `REGEX_PARAMETER.test(key)` for `REGEX_PARAMETER = /\x7b:[a-z]+\x7d/`:
some suffix of `key` begins with a placeholder. -/
def containsPlaceholder : Str → Bool
  | [] => false
  | c :: cs => (placeholderTail (c :: cs)).isSome || containsPlaceholder cs

/-- A token of the compiled route regex: a literal character or a
placeholder (compiled to `[^/]+`). -/
inductive RToken where
  | lit (c : Char)
  | param
deriving DecidableEq, Repr

/-- Tokenization worker; the fuel argument only serves structural
recursion and is always at least the length of the string. -/
def tokenizeAux : Nat → Str → List RToken
  | 0, _ => []
  | _, [] => []
  | fuel + 1, c :: cs =>
    match placeholderTail (c :: cs) with
    | some rest => RToken.param :: tokenizeAux fuel rest
    | none => RToken.lit c :: tokenizeAux fuel cs

/-- Tokenize a route template: literal characters interleaved with
`\x7b:[a-z]+\x7d` placeholders, scanning left to right exactly as the
source's escape-then-replace does. -/
def tokenize (s : Str) : List RToken := tokenizeAux s.length s

/-- Matching semantics of the compiled template regex
`^ lit/param ... lit/param` (no end anchor) against `s`: literals match
exactly, a placeholder matches one or more non-`/` characters (all split
points are tried, as regex backtracking does), and any remainder of `s`
after the last token is accepted. -/
def matchTokens : List RToken → Str → Bool
  | [], _ => true
  | RToken.lit _ :: _, [] => false
  | RToken.lit c :: ts, x :: xs => c = x && matchTokens ts xs
  | RToken.param :: ts, s =>
    let run := (s.takeWhile (fun c => c ≠ '/')).length
    (List.range run).any (fun i => matchTokens ts (s.drop (i + 1)))

/-- Model of `route.indexOf('\x7b:')`: index of the first occurrence of the
two-character sequence, `none` when absent (JS returns `-1`). -/
def indexOfBraceColon : Str → Option Nat
  | [] => none
  | c :: cs =>
    match cs with
    | c2 :: _ => if c = lbrace ∧ c2 = ':' then some 0 else (indexOfBraceColon cs).map (· + 1)
    | [] => none

/-- Model of `route.substring(0, route.indexOf('\x7b:'))`: JS `substring` clamps a
negative end index to `0`, so an absent occurrence yields the empty
string. -/
def routeHeadBeforeBrace (route : Str) : Str :=
  match indexOfBraceColon route with
  | some i => route.take i
  | none => []

/-- Model of `testParameterizedMatch(route, key)` (patch-rest lines 82-93):
`key` must contain a placeholder, `key` must start with the part of
`route` before `route`'s own first `\x7b:` (vacuous for concrete routes),
and the compiled template regex must match `route` anchored at the
start. -/
def testParameterizedMatch (route key : Str) : Bool :=
  containsPlaceholder key &&
  List.isPrefixOf (routeHeadBeforeBrace route) key &&
  matchTokens (tokenize key) route

/-- Specification-side matching relation, following the spec's words: the
template, with each placeholder replaced by one-or-more non-`/`
characters and anchored at the start, matches a prefix of the concrete
path. -/
inductive TokensMatchStart : List RToken → Str → Prop where
  | nil (s : Str) : TokensMatchStart [] s
  | lit (c : Char) (ts : List RToken) (s : Str) :
      TokensMatchStart ts s → TokensMatchStart (RToken.lit c :: ts) (c :: s)
  | param (chunk : Str) (ts : List RToken) (s : Str) :
      chunk ≠ [] → (∀ x ∈ chunk, x ≠ '/') →
      TokensMatchStart ts s → TokensMatchStart (RToken.param :: ts) (chunk ++ s)

/-- The executable regex matcher agrees with the specification-side
matching relation. -/
theorem matchTokens_iff (ts : List RToken) :
    ∀ s : Str, matchTokens ts s = true ↔ TokensMatchStart ts s := by
  induction ts with
  | nil =>
    intro s
    simpa [matchTokens] using TokensMatchStart.nil s
  | cons t ts ih =>
    intro s
    cases t with
    | lit c =>
      cases s with
      | nil =>
        simp only [matchTokens]
        constructor
        · intro h
          cases h
        · intro h
          cases h
      | cons x xs =>
        constructor
        · intro h
          simp only [matchTokens, Bool.and_eq_true, decide_eq_true_eq] at h
          obtain ⟨hcx, hm⟩ := h
          subst hcx
          exact TokensMatchStart.lit c ts xs ((ih xs).mp hm)
        · intro h
          cases h with
          | lit c ts s hts =>
            simp only [matchTokens, Bool.and_eq_true, decide_eq_true_eq]
            exact ⟨by simp, (ih _).mpr hts⟩
    | param =>
      constructor
      · intro h
        simp only [matchTokens, List.any_eq_true, List.mem_range] at h
        obtain ⟨i, hi, hm⟩ := h
        have hrun : i + 1 ≤ (s.takeWhile (fun c => c ≠ '/')).length := hi
        have htake : s.take (i + 1) = (s.takeWhile (fun c => c ≠ '/')).take (i + 1) := by
          conv_lhs => rw [← List.takeWhile_append_dropWhile (fun c => c ≠ '/') s]
          rw [List.take_append_of_le_length hrun]
        have hslen : i + 1 ≤ s.length :=
          le_trans hrun (List.takeWhile_sublist (fun c => c ≠ '/')).length_le
        have hchunkne : s.take (i + 1) ≠ [] := by
          intro hnil
          have := congrArg List.length hnil
          simp only [List.length_take, List.length_nil] at this
          omega
        have hchunkns : ∀ x ∈ s.take (i + 1), x ≠ '/' := by
          intro x hx
          rw [htake] at hx
          have := List.mem_takeWhile_imp (List.mem_of_mem_take hx)
          simpa using this
        have hrest := (ih _).mp hm
        have hfull :=
          TokensMatchStart.param (s.take (i + 1)) ts (s.drop (i + 1)) hchunkne hchunkns hrest
        rwa [List.take_append_drop] at hfull
      · intro h
        cases h with
        | param chunk ts s hne hns hts =>
          simp only [matchTokens, List.any_eq_true, List.mem_range]
          have h1 : 1 ≤ chunk.length := by
            cases chunk with
            | nil => exact absurd rfl hne
            | cons a l => simp
          have hsplit :
              (chunk ++ s).takeWhile (fun c => c ≠ '/')
                = chunk ++ s.takeWhile (fun c => c ≠ '/') := by
            apply List.takeWhile_append_of_pos
            intro x hx
            simpa using hns x hx
          refine ⟨chunk.length - 1, ?_, ?_⟩
          · rw [hsplit, List.length_append]
            omega
          · have heq : chunk.length - 1 + 1 = chunk.length := by omega
            rw [heq, List.drop_left]
            exact (ih _).mpr hts

/-! ## REST interception (patch-rest and patch-user-agent)

`patchedRequest` is the wrapper that `patchRequest` installs over
`REST.request` (patch-rest lines 104-140); `patchedResolveRequest` the
wrapper `patchResolveRequest` installs over
`RequestManager.resolveRequest` (lines 153-179); and
`wrapResolveRequestStep` the body of the wrapper that the user-agent
patch installs over the (already-wrapped) `resolveRequest`
(patch-user-agent lines 44-57).  The user-agent patch is applied after
the rest patch (`DEFAULT_PATCHES` order in userbot/index.ts), so its
wrapper is outermost; `resolveRequestPipeline` is the composition a
caller of `resolveRequest` reaches. -/

/-- A JSON-ish JS value: number, string, or plain object. -/
inductive JVal where
  | vint (n : Int)
  | vstr (s : Str)
  | vobj (fields : List (Str × JVal))

/-- A JS object of `JVal` fields, observed through `objGet`. -/
abbrev JObj := List (Str × JVal)

/-- The `InternalRequest` fields the interception layer touches:
`fullRoute` plus stand-ins for the fields it forwards untouched. -/
structure RestRequest where
  fullRoute : Str
  method : Str
  body : Int
deriving DecidableEq, Repr

/-- Model of `fetchOptions.headers`: either an array of `"Name: value"` strings, a
plain name-to-value object, or `null`/`undefined`. -/
inductive Headers where
  | harr (hs : List Str)
  | hmap (m : List (Str × Str))
  | hnone
deriving DecidableEq, Repr

/-- The `RequestOptions` fields the layer touches. -/
structure FetchOptions where
  headers : Headers
  method : Str
deriving DecidableEq, Repr

/-- A resolved request: `\x7b url, fetchOptions \x7d`. -/
structure Resolved where
  url : Str
  fetchOptions : FetchOptions
deriving DecidableEq, Repr

/-- A REST route patch (patch-rest `RoutePatch`).  Hooks receive the
request (the `client` context argument carries no information the hooks
in this repository read beyond the user-agent value, which is threaded
separately) and may throw. -/
structure RoutePatch where
  redirect : Option Str := none
  pre : Option (RestRequest → Except JsErr RestRequest) := none
  post : Option (RestRequest → JObj → Except JsErr JObj) := none
  resolve : Option (RestRequest → Resolved → Except JsErr Resolved) := none

/-- Route-patch lookup (patch-rest lines 110-121 and 159-170): exact
`Map.get` first, then the first entry in insertion order whose key
parameterized-matches the concrete route. -/
def lookupRoutePatch (routes : List (Str × RoutePatch)) (route : Str) : Option RoutePatch :=
  match routes.find? (fun e => e.1 == route) with
  | some e => some e.2
  | none => (routes.find? (fun e => testParameterizedMatch route e.1)).map (fun e => e.2)

/-- The redirect step (patch-rest lines 124-126); JS truthiness makes an
empty-string redirect a no-op. -/
def applyRedirect (patch? : Option RoutePatch) (options : RestRequest) : RestRequest :=
  match patch?.bind (fun p => p.redirect) with
  | some r => if r = [] then options else { options with fullRoute := r }
  | none => options

/-- The `pre` step (patch-rest lines 129-131). -/
def applyPre (patch? : Option RoutePatch) (options : RestRequest) : Except JsErr RestRequest :=
  match patch?.bind (fun p => p.pre) with
  | some f => f options
  | none => .ok options

/-- The wrapper installed over `REST.request` (patch-rest lines 104-140):
look up the patch by the original route, rewrite the route, run `pre`,
run the underlying request, run `post` on its result.  Exceptions from
hooks or the underlying call propagate. -/
def patchedRequest (routes : List (Str × RoutePatch))
    (original : RestRequest → Except JsErr JObj) (options : RestRequest) : Except JsErr JObj :=
  match applyPre (lookupRoutePatch routes options.fullRoute)
      (applyRedirect (lookupRoutePatch routes options.fullRoute) options) with
  | .error e => .error e
  | .ok options2 =>
    match original options2 with
    | .error e => .error e
    | .ok result =>
      match (lookupRoutePatch routes options.fullRoute).bind (fun p => p.post) with
      | some g => g options2 result
      | none => .ok result

/-- The wrapper installed over `RequestManager.resolveRequest`
(patch-rest lines 153-179): run the underlying resolve, then the
`resolve` hook of the applicable patch. -/
def patchedResolveRequest (routes : List (Str × RoutePatch))
    (original : RestRequest → Except JsErr Resolved) (options : RestRequest) :
    Except JsErr Resolved :=
  match original options with
  | .error e => .error e
  | .ok result =>
    match (lookupRoutePatch routes options.fullRoute).bind (fun p => p.resolve) with
    | some f => f options result
    | none => .ok result

/-- The header name `User-Agent`. -/
def uaKey : Str := "User-Agent".toList

/-- The body of the user-agent wrapper over `resolveRequest`
(patch-user-agent lines 44-57), applied to the already-awaited result of
the wrapped function.  When the headers arrive as an array, the code
builds the normalized object and sets `User-Agent` on it, but assigns it
only to the local variable `headers` and never writes it back into
`result.fetchOptions.headers`; the returned result therefore still
carries the original array.  When the headers are already an object, the
in-place `headers['User-Agent'] = ...` mutation is visible in the
result. -/
def wrapResolveRequestStep (uaValue : Str) (result : Resolved) : Except JsErr Resolved :=
  match result.fetchOptions.headers with
  | .harr hs =>
    match normalizeHeaders hs with
    | .error e => .error e
    | .ok _normalized => .ok result
  | .hmap m =>
    .ok { result with
            fetchOptions := { result.fetchOptions with headers := .hmap (objSet m uaKey uaValue) } }
  | .hnone => .ok result

/-- The composed `resolveRequest` seen by callers after all default
patches are installed: the rest wrapper is applied first
(`DEFAULT_PATCHES` lists Rest before UserAgent), so the user-agent
wrapper is outermost and its header handling runs after the route
`resolve` hooks. -/
def resolveRequestPipeline (routes : List (Str × RoutePatch)) (uaValue : Str)
    (original : RestRequest → Except JsErr Resolved) (options : RestRequest) :
    Except JsErr Resolved :=
  match patchedResolveRequest routes original options with
  | .error e => .error e
  | .ok r => wrapResolveRequestStep uaValue r

/-! ### Default route patches (patch-rest lines 186-213, patch-user-agent line 4) -/

/-- The constant `DEFAULT_USER_AGENT` (patch-user-agent lines 4-5). -/
def DEFAULT_USER_AGENT : Str :=
  "Mozilla/5.0 (Windows NT 10.0; Win64; x64) AppleWebKit/537.36 (KHTML, like Gecko) Chrome/109.0.0.0 Safari/537.36".toList

/-- The route `Routes.gatewayBot()`. -/
def gatewayBotRoute : Str := "/gateway/bot".toList

/-- The route `Routes.gateway()`. -/
def gatewayRoute : Str := "/gateway".toList

/-- The synthesized `session_start_limit` object of the gateway-bot-info
default patch. -/
def sessionStartLimitSynth : JObj :=
  [("total".toList, JVal.vint 1), ("remaining".toList, JVal.vint 1),
   ("reset_after".toList, JVal.vint 14400000), ("max_concurrency".toList, JVal.vint 1)]

/-- The synthesized fields of the gateway-bot-info `post` hook, placed
before the spread of the real response so that real fields shadow
them. -/
def gatewayBotSynth : JObj :=
  [("shards".toList, JVal.vint 1),
   ("session_start_limit".toList, JVal.vobj sessionStartLimitSynth)]

/-- The gateway-bot-info default patch (patch-rest lines 189-196):
redirect to the generic gateway route, and merge the synthesized fields
under the real response fields (`\x7b shards, session_start_limit, ...res \x7d`). -/
def gatewayBotPatch : RoutePatch :=
  { redirect := some gatewayRoute,
    post := some (fun _req res => .ok (gatewayBotSynth ++ res)) }

/-- The header name `Authorization`. -/
def authKey : Str := "Authorization".toList

/-- Model of `value.replace(/^Bearer /, '')`. -/
def stripBearer (s : Str) : Str :=
  if List.isPrefixOf "Bearer ".toList s then s.drop 7 else s

/-- The `/users/\x7b:id\x7d/` default `resolve` hook (patch-rest lines
198-204).  It casts `resolved.fetchOptions.headers` to a record and
dereferences `headers['Authorization']` unconditionally: when the headers
are still an array of strings or lack an `Authorization` key, that read
yields `undefined` and `.replace` throws a `TypeError`; when the headers
are `undefined`, reading the property itself throws. -/
def usersProfileResolve (_req : RestRequest) (resolved : Resolved) : Except JsErr Resolved :=
  match resolved.fetchOptions.headers with
  | .hmap m =>
    match objGet m authKey with
    | some v =>
      .ok { resolved with
              fetchOptions :=
                { resolved.fetchOptions with headers := .hmap (objSet m authKey (stripBearer v)) } }
    | none => .error (.typeError "Cannot read properties of undefined (reading 'replace')")
  | .harr _ => .error (.typeError "Cannot read properties of undefined (reading 'replace')")
  | .hnone => .error (.typeError "Cannot read properties of undefined (reading 'Authorization')")

/-- The `/users/\x7b:id\x7d/` route template key. -/
def usersTemplate : Str := "/users/\x7b:id\x7d/".toList

/-- The `/users/\x7b:id\x7d/` default patch. -/
def usersProfilePatch : RoutePatch := { resolve := some usersProfileResolve }

/-- Model of `createDefaults()`: the default route-patch map in insertion order
(patch-rest lines 186-213). -/
def DEFAULT_ROUTE_PATCHES : List (Str × RoutePatch) :=
  [(gatewayBotRoute, gatewayBotPatch), (usersTemplate, usersProfilePatch)]

/-! ## Gateway interception (patch-gateway)

`patchShardSend` is the wrapper installed over a shard's `send`
(patch-gateway lines 138-153), and `patchShardDeliver` the
dispatch-frame handling of the wrapper installed over the websocket
manager's `emit` (lines 164-202): a frame with an `op` field first goes
through the packet-level `inbound` hook for its opcode, and then — when
the (original) opcode is the dispatch opcode — through the event-level
`inbound` hook selected by the event name `t` of the possibly-patched
frame. -/

/-- A gateway frame envelope `\x7b op, d, t?, s? \x7d`; `op` and `t` are
absent when the frame lacks those fields, and the payload `d` is an
opaque value. -/
structure Frame where
  op : Option Int
  t : Option Str
  d : Int
  s : Option Int
deriving DecidableEq, Repr

/-- A gateway packet patch (patch-gateway `GatewayPacketPatch`). -/
structure PacketPatch where
  inbound : Option (Frame → Frame) := none
  outbound : Option (Frame → Frame) := none

/-- A gateway event patch (patch-gateway `GatewayEventPatch`). -/
structure EventPatch where
  inbound : Option (Frame → Frame) := none

/-- The gateway patch configuration: opcode-keyed packet patches and
event-name-keyed event patches, in insertion order. -/
structure GatewayConfig where
  packets : List (Int × PacketPatch)
  events : List (Str × EventPatch)

/-- The opcode `GatewayOpcodes.Dispatch`. -/
def dispatchOpcode : Int := 0

/-- Model of the lookup `client.patches.gateway.packets[opcode]`. -/
def lookupPacketPatch (ps : List (Int × PacketPatch)) (op : Int) : Option PacketPatch :=
  (ps.find? (fun e => e.1 == op)).map (fun e => e.2)

/-- Model of the lookup `client.patches.gateway.events[event]`. -/
def lookupEventPatch (es : List (Str × EventPatch)) (t : Str) : Option EventPatch :=
  (es.find? (fun e => e.1 == t)).map (fun e => e.2)

/-- The packet-level outbound stage: `if (patch?.outbound) data = patch.outbound(client, data)`. -/
def packetOutboundStage (cfg : GatewayConfig) (op : Int) (data : Frame) : Frame :=
  match (lookupPacketPatch cfg.packets op).bind (fun p => p.outbound) with
  | some f => f data
  | none => data

/-- The packet-level inbound stage: `if (patch?.inbound) data = patch.inbound(client, data)`. -/
def packetInboundStage (cfg : GatewayConfig) (op : Int) (data : Frame) : Frame :=
  match (lookupPacketPatch cfg.packets op).bind (fun p => p.inbound) with
  | some f => f data
  | none => data

/-- The outbound `send` wrapper (patch-gateway lines 138-153): a frame
with an `op` field goes through its opcode's `outbound` hook if any;
everything else passes through unchanged. -/
def patchShardSend (cfg : GatewayConfig) (data : Frame) : Frame :=
  match data.op with
  | none => data
  | some op => packetOutboundStage cfg op data

/-- The event-level inbound hook application for event name `t`. -/
def eventInboundHook (cfg : GatewayConfig) (t : Str) (data : Frame) : Frame :=
  match (lookupEventPatch cfg.events t).bind (fun p => p.inbound) with
  | some g => g data
  | none => data

/-- The event-level stage of inbound dispatch handling (patch-gateway
lines 187-195): the event patch is selected by the `t` of the frame as it
stands after the packet-level stage (`events[undefined]` when `t` is
absent finds no patch). -/
def applyEventStage (cfg : GatewayConfig) (data : Frame) : Frame :=
  match data.t with
  | none => data
  | some t => eventInboundHook cfg t data

/-- The inbound dispatch-frame delivery wrapper (patch-gateway lines
177-198): packet-level `inbound` hook by opcode first, then — when the
original opcode is the dispatch opcode — the event-level stage on the
packet stage's output. -/
def patchShardDeliver (cfg : GatewayConfig) (data : Frame) : Frame :=
  match data.op with
  | none => data
  | some op =>
    if op = dispatchOpcode then applyEventStage cfg (packetInboundStage cfg op data)
    else packetInboundStage cfg op data

/-! ## Helper lemmas -/

/-- A key bound in `res` reads the same through `objGet` after fields are
prepended (JS spread placing `res` last). -/
theorem objGet_append_right {α : Type} (a res : List (Str × α)) (k : Str) (v : α)
    (h : objGet res k = some v) : objGet (a ++ res) k = some v := by
  unfold objGet at h ⊢
  rw [List.reverse_append, List.find?_append]
  rw [Option.map_eq_some'] at h
  obtain ⟨e, he, hv⟩ := h
  rw [he]
  simp [hv]

/-- A key absent from `res` reads from the prepended fields. -/
theorem objGet_append_of_none {α : Type} (a res : List (Str × α)) (k : Str)
    (h : objGet res k = none) : objGet (a ++ res) k = objGet a k := by
  unfold objGet at h ⊢
  rw [List.reverse_append, List.find?_append]
  rw [Option.map_eq_none'] at h
  rw [h]
  simp

/-- The function `splitChar` always produces a first field, and it is the longest
separator-free initial run. -/
theorem splitChar_head (sep : Char) (s : Str) :
    ∃ t, splitChar sep s = (s.takeWhile (fun c => c ≠ sep)) :: t := by
  induction s with
  | nil => exact ⟨[], rfl⟩
  | cons c cs ih =>
    by_cases hc : c = sep
    · subst hc
      refine ⟨splitChar c cs, ?_⟩
      simp [splitChar, List.takeWhile]
    · obtain ⟨t, ht⟩ := ih
      refine ⟨t, ?_⟩
      simp only [splitChar, if_neg hc, ht, List.takeWhile]
      simp [hc]

/-- Splitting at an explicit separator after a separator-free run takes
off exactly that run. -/
theorem splitChar_append_sep (sep : Char) (name val : Str) (hname : sep ∉ name) :
    splitChar sep (name ++ sep :: val) = name :: splitChar sep val := by
  induction name with
  | nil => simp [splitChar]
  | cons c cs ih =>
    have hc : c ≠ sep := fun h => hname (h ▸ List.mem_cons_self c cs)
    have hcs : sep ∉ cs := fun h => hname (List.mem_cons_of_mem c h)
    simp only [List.cons_append, splitChar, if_neg hc, List.append_eq, ih hcs]

/-- With pairwise-distinct keys, `find?` by key returns the unique entry
of a bound key. -/
theorem find?_key_eq {α : Type} (l : List (Str × α)) (route : Str) (p : α)
    (hnd : (l.map Prod.fst).Nodup) (hmem : (route, p) ∈ l) :
    l.find? (fun e => e.1 == route) = some (route, p) := by
  induction l with
  | nil => cases hmem
  | cons hd tl ih =>
    rcases List.mem_cons.mp hmem with h | h
    · subst h
      exact List.find?_cons_of_pos tl (by simp)
    · have hnd' := List.nodup_cons.mp hnd
      have hne : hd.1 ≠ route := by
        intro hk
        exact hnd'.1 (hk ▸ List.mem_map_of_mem Prod.fst h)
      rw [List.find?_cons_of_neg tl (by simpa using hne)]
      exact ih hnd'.2 h

/-! ## Claims -/

/-- C1 (counterexample): normalizing the header list
`["Content-Type: application/json", "Authorization: Bearer xyz"]` yields
`Authorization ↦ "Bearer xyz"`, not the claimed `"xyz"`: `trimStart`
removes the leading space of `" Bearer xyz"` but not the `Bearer `
scheme (that stripping lives only in the `/users/\x7b:id\x7d/` resolve
hook). -/
theorem c1_counterexample :
    normalizeHeaders
        ["Content-Type: application/json".toList, "Authorization: Bearer xyz".toList]
      = .ok [("Content-Type".toList, "application/json".toList),
             ("Authorization".toList, "Bearer xyz".toList)]
    ∧ objGet [("Content-Type".toList, "application/json".toList),
              ("Authorization".toList, "Bearer xyz".toList)] authKey
        ≠ some "xyz".toList := by
  decide

/-- C1 (amended): given headers arriving as
`["Content-Type: application/json", "Authorization: Bearer xyz"]`, the
normalized mapping reads `Content-Type ↦ "application/json"` and
`Authorization ↦ "Bearer xyz"` (leading whitespace trimmed from values),
in either field order. -/
theorem c1_normalization_roundtrip :
    ((normalizeHeaders
          ["Content-Type: application/json".toList, "Authorization: Bearer xyz".toList]).map
        (fun m => (objGet m "Content-Type".toList, objGet m authKey))
      = .ok (some "application/json".toList, some "Bearer xyz".toList))
    ∧ ((normalizeHeaders
          ["Authorization: Bearer xyz".toList, "Content-Type: application/json".toList]).map
        (fun m => (objGet m "Content-Type".toList, objGet m authKey))
      = .ok (some "application/json".toList, some "Bearer xyz".toList)) := by
  decide

/-- C9: `header.split(':', 2)` keeps only the first two fields, so a
header whose value contains a colon has its normalized value truncated at
the value's first colon, discarding the rest (and the truncated value
differs from the full value). -/
theorem c9_split_limit_truncates (name val : Str) (hname : ':' ∉ name) (hval : ':' ∈ val) :
    splitHeader (name ++ ':' :: val)
        = .ok (name, trimStart (val.takeWhile (fun c => c ≠ ':')))
    ∧ val.takeWhile (fun c => c ≠ ':') ≠ val := by
  constructor
  · unfold splitHeader splitCharLimit
    rw [splitChar_append_sep ':' name val hname]
    obtain ⟨t, ht⟩ := splitChar_head ':' val
    rw [ht]
    rfl
  · intro heq
    have := List.mem_takeWhile_imp (heq ▸ hval)
    simp at this

/-- C9 (witness): `"Referer: https://x"` normalizes to the pair
`("Referer", "https")`, truncated at the colon of `"https://x"`. -/
theorem c9_split_limit_truncates_witness :
    (':' ∉ "Referer".toList) ∧ (':' ∈ " https://x".toList) ∧
    (splitHeader ("Referer".toList ++ ':' :: " https://x".toList)
         = .ok ("Referer".toList, trimStart ((" https://x".toList).takeWhile (fun c => c ≠ ':')))
     ∧ (" https://x".toList).takeWhile (fun c => c ≠ ':') ≠ " https://x".toList) :=
  ⟨by decide, by decide,
   c9_split_limit_truncates "Referer".toList " https://x".toList (by decide) (by decide)⟩

/-- C3: `testParameterizedMatch` implements an anchored-at-start,
unanchored-at-end (prefix) match: for a concrete path (one containing no
`\x7b:` sequence) and a template containing a placeholder, it succeeds
exactly when the template with each placeholder replaced by one-or-more
non-`/` characters matches an initial segment of the path; in particular
`/users/123/` and `/users/42/guilds` match `/users/\x7b:id\x7d/` while
`/guilds/123/` does not. -/
theorem c3_parameterized_match_semantics :
    (∀ route key : Str, indexOfBraceColon route = none → containsPlaceholder key = true →
        (testParameterizedMatch route key = true ↔ TokensMatchStart (tokenize key) route))
    ∧ testParameterizedMatch "/users/123/".toList usersTemplate = true
    ∧ testParameterizedMatch "/guilds/123/".toList usersTemplate = false
    ∧ testParameterizedMatch "/users/42/guilds".toList usersTemplate = true := by
  refine ⟨?_, by decide, by decide, by decide⟩
  intro route key hroute hkey
  unfold testParameterizedMatch routeHeadBeforeBrace
  rw [hroute, hkey]
  simp [List.isPrefixOf, matchTokens_iff]

/-- C3 (witness): the semantic characterization applied to
`/users/123/` against `/users/\x7b:id\x7d/`. -/
theorem c3_parameterized_match_semantics_witness :
    (indexOfBraceColon "/users/123/".toList = none)
    ∧ (containsPlaceholder usersTemplate = true)
    ∧ (testParameterizedMatch "/users/123/".toList usersTemplate = true
        ↔ TokensMatchStart (tokenize usersTemplate) "/users/123/".toList) :=
  ⟨by decide, by decide,
   c3_parameterized_match_semantics.1 "/users/123/".toList usersTemplate (by decide) (by decide)⟩

/-- C4: route-patch lookup returns the exactly-equal key's patch when one
exists; otherwise the patch of the first entry, in insertion order, whose
key parameterized-matches the concrete route; otherwise none.  An exact
key match is preferred even when a parameterized template that also
matches was inserted first. -/
theorem c4_lookup_exact_then_parameterized :
    (∀ (routes : List (Str × RoutePatch)) (route : Str) (p : RoutePatch),
        (routes.map Prod.fst).Nodup → (route, p) ∈ routes →
        lookupRoutePatch routes route = some p)
    ∧ (∀ (before after : List (Str × RoutePatch)) (k route : Str) (p : RoutePatch),
        (∀ e ∈ before ++ (k, p) :: after, e.1 ≠ route) →
        (∀ e ∈ before, testParameterizedMatch route e.1 = false) →
        testParameterizedMatch route k = true →
        lookupRoutePatch (before ++ (k, p) :: after) route = some p)
    ∧ (∀ (routes : List (Str × RoutePatch)) (route : Str),
        (∀ e ∈ routes, e.1 ≠ route) →
        (∀ e ∈ routes, testParameterizedMatch route e.1 = false) →
        lookupRoutePatch routes route = none)
    ∧ (∀ p1 p2 : RoutePatch,
        testParameterizedMatch "/users/123/".toList usersTemplate = true ∧
        lookupRoutePatch [(usersTemplate, p1), ("/users/123/".toList, p2)]
            "/users/123/".toList = some p2) := by
  refine ⟨?_, ?_, ?_, ?_⟩
  · intro routes route p hnd hmem
    unfold lookupRoutePatch
    rw [find?_key_eq routes route p hnd hmem]
  · intro before after k route p hne hbefore hk
    unfold lookupRoutePatch
    have hexact : (before ++ (k, p) :: after).find? (fun e => e.1 == route) = none := by
      rw [List.find?_eq_none]
      intro e he
      simpa using hne e he
    rw [hexact, List.find?_append]
    have hb : before.find? (fun e => testParameterizedMatch route e.1) = none := by
      rw [List.find?_eq_none]
      intro e he
      simp [hbefore e he]
    rw [hb, List.find?_cons_of_pos after (by simpa using hk)]
    rfl
  · intro routes route hne hnomatch
    unfold lookupRoutePatch
    have hexact : routes.find? (fun e => e.1 == route) = none := by
      rw [List.find?_eq_none]
      intro e he
      simpa using hne e he
    have hparam : routes.find? (fun e => testParameterizedMatch route e.1) = none := by
      rw [List.find?_eq_none]
      intro e he
      simp [hnomatch e he]
    rw [hexact, hparam]
    rfl
  · intro p1 p2
    exact ⟨by decide, rfl⟩

/-- C4 (witness): the four parts at concrete inputs over the default
route-patch map. -/
theorem c4_lookup_exact_then_parameterized_witness :
    ((DEFAULT_ROUTE_PATCHES.map Prod.fst).Nodup
     ∧ (gatewayBotRoute, gatewayBotPatch) ∈ DEFAULT_ROUTE_PATCHES
     ∧ lookupRoutePatch DEFAULT_ROUTE_PATCHES gatewayBotRoute = some gatewayBotPatch)
    ∧ lookupRoutePatch
        ([(gatewayBotRoute, gatewayBotPatch)] ++ (usersTemplate, usersProfilePatch) :: [])
        "/users/42/".toList = some usersProfilePatch
    ∧ lookupRoutePatch DEFAULT_ROUTE_PATCHES "/missing".toList = none
    ∧ lookupRoutePatch [(usersTemplate, usersProfilePatch), ("/users/123/".toList, gatewayBotPatch)]
        "/users/123/".toList = some gatewayBotPatch :=
  ⟨⟨by decide, List.mem_cons_self _ _,
    c4_lookup_exact_then_parameterized.1 DEFAULT_ROUTE_PATCHES gatewayBotRoute gatewayBotPatch
      (by decide) (List.mem_cons_self _ _)⟩,
   c4_lookup_exact_then_parameterized.2.1 [(gatewayBotRoute, gatewayBotPatch)] []
      usersTemplate "/users/42/".toList usersProfilePatch
      (by intro e he; fin_cases he <;> decide)
      (by intro e he; fin_cases he; decide)
      (by decide),
   c4_lookup_exact_then_parameterized.2.2.1 DEFAULT_ROUTE_PATCHES "/missing".toList
      (by intro e he; fin_cases he <;> decide)
      (by intro e he; fin_cases he <;> decide),
   (c4_lookup_exact_then_parameterized.2.2.2 usersProfilePatch gatewayBotPatch).2⟩

/-- C5: for an inbound dispatch frame with a packet-level inbound patch
`pf`, the delivered frame is the event-level hook applied to `pf`'s
output, where the event hook is the one registered under the event name
read from `pf`'s output — so a packet patch that renames the event
selects the new name's event patch. -/
theorem c5_packet_patch_first (cfg : GatewayConfig) (pf g : Frame → Frame) (f : Frame)
    (tNew : Str)
    (hop : f.op = some dispatchOpcode)
    (hpk : (lookupPacketPatch cfg.packets dispatchOpcode).bind (fun p => p.inbound) = some pf)
    (ht : (pf f).t = some tNew)
    (hev : (lookupEventPatch cfg.events tNew).bind (fun p => p.inbound) = some g) :
    patchShardDeliver cfg f = g (pf f) := by
  unfold patchShardDeliver
  rw [hop]
  show applyEventStage cfg (packetInboundStage cfg dispatchOpcode f) = g (pf f)
  have h1 : packetInboundStage cfg dispatchOpcode f = pf f := by
    unfold packetInboundStage
    rw [hpk]
  rw [h1]
  unfold applyEventStage
  rw [ht]
  show eventInboundHook cfg tNew (pf f) = g (pf f)
  unfold eventInboundHook
  rw [hev]

/-- The C5 witness packet patch: rename the event from `A` to `B` and
bump the payload. -/
def c5PacketInbound : Frame → Frame :=
  fun fr => { fr with t := some "B".toList, d := fr.d + 1 }

/-- The C5 witness event patch registered under the original name `A`. -/
def c5EventA : Frame → Frame := fun fr => { fr with d := fr.d + 10 }

/-- The C5 witness event patch registered under the new name `B`. -/
def c5EventB : Frame → Frame := fun fr => { fr with d := fr.d + 100 }

/-- The C5 witness configuration. -/
def c5Config : GatewayConfig :=
  { packets := [(0, { inbound := some c5PacketInbound })],
    events := [("A".toList, { inbound := some c5EventA }),
               ("B".toList, { inbound := some c5EventB })] }

/-- C5 (witness): a dispatch frame named `A` whose packet patch renames
it to `B` is handled by `B`'s event patch (payload `1 ↦ 102`), not `A`'s
(which would give `12`). -/
theorem c5_packet_patch_first_witness :
    (Frame.mk (some 0) (some "A".toList) 1 none).op = some dispatchOpcode
    ∧ (c5PacketInbound (Frame.mk (some 0) (some "A".toList) 1 none)).t = some "B".toList
    ∧ patchShardDeliver c5Config (Frame.mk (some 0) (some "A".toList) 1 none)
        = c5EventB (c5PacketInbound (Frame.mk (some 0) (some "A".toList) 1 none))
    ∧ c5EventB (c5PacketInbound (Frame.mk (some 0) (some "A".toList) 1 none))
        = Frame.mk (some 0) (some "B".toList) 102 none :=
  ⟨rfl, rfl,
   c5_packet_patch_first c5Config c5PacketInbound c5EventB
     (Frame.mk (some 0) (some "A".toList) 1 none) "B".toList rfl rfl rfl rfl,
   by decide⟩

/-- C7 (counterexample): a dispatch frame whose opcode has no registered
packet patch is still altered by the inbound delivery path when an
event-level patch is registered for its event name: with no packet
patches and an event patch on `READY`, the frame
`\x7b op: 0, t: "READY", d: 1 \x7d` is delivered with `d = 2`. -/
theorem c7_counterexample :
    lookupPacketPatch
        (GatewayConfig.mk []
          [("READY".toList, { inbound := some (fun fr => { fr with d := fr.d + 1 }) })]).packets
        0 = none
    ∧ patchShardDeliver
        (GatewayConfig.mk []
          [("READY".toList, { inbound := some (fun fr => { fr with d := fr.d + 1 }) })])
        (Frame.mk (some 0) (some "READY".toList) 1 none)
        ≠ Frame.mk (some 0) (some "READY".toList) 1 none :=
  ⟨rfl, by decide⟩

/-- C7 (amended): frames without an `op` field pass through both paths
unchanged; a frame whose opcode has no packet hook for the direction
passes through the outbound path unchanged, and through the inbound
delivery path unchanged provided it is not a dispatch frame — a dispatch
frame additionally requires that no event-level inbound patch is
registered for its event name. -/
theorem c7_unpatched_passthrough (cfg : GatewayConfig) (f : Frame) :
    (f.op = none → patchShardSend cfg f = f ∧ patchShardDeliver cfg f = f)
    ∧ (∀ o, f.op = some o →
        (lookupPacketPatch cfg.packets o).bind (fun p => p.outbound) = none →
        patchShardSend cfg f = f)
    ∧ (∀ o, f.op = some o →
        (lookupPacketPatch cfg.packets o).bind (fun p => p.inbound) = none →
        o ≠ dispatchOpcode →
        patchShardDeliver cfg f = f)
    ∧ (∀ o, f.op = some o →
        (lookupPacketPatch cfg.packets o).bind (fun p => p.inbound) = none →
        (∀ t, f.t = some t → (lookupEventPatch cfg.events t).bind (fun p => p.inbound) = none) →
        patchShardDeliver cfg f = f) := by
  have hin : ∀ o, (lookupPacketPatch cfg.packets o).bind (fun p => p.inbound) = none →
      packetInboundStage cfg o f = f := by
    intro o h
    unfold packetInboundStage
    rw [h]
  refine ⟨?_, ?_, ?_, ?_⟩
  · intro hop
    constructor
    · unfold patchShardSend
      rw [hop]
    · unfold patchShardDeliver
      rw [hop]
  · intro o hop hpk
    unfold patchShardSend
    rw [hop]
    show packetOutboundStage cfg o f = f
    unfold packetOutboundStage
    rw [hpk]
  · intro o hop hpk hnd
    unfold patchShardDeliver
    rw [hop]
    show (if o = dispatchOpcode then applyEventStage cfg (packetInboundStage cfg o f)
          else packetInboundStage cfg o f) = f
    rw [if_neg hnd]
    exact hin o hpk
  · intro o hop hpk hev
    unfold patchShardDeliver
    rw [hop]
    show (if o = dispatchOpcode then applyEventStage cfg (packetInboundStage cfg o f)
          else packetInboundStage cfg o f) = f
    rw [hin o hpk]
    by_cases hdisp : o = dispatchOpcode
    · rw [if_pos hdisp]
      unfold applyEventStage
      cases hft : f.t with
      | none => rfl
      | some t =>
        show eventInboundHook cfg t f = f
        unfold eventInboundHook
        rw [hev t hft]
    · rw [if_neg hdisp]

/-- The C7 witness configuration: one packet patch with only an outbound
hook on opcode 2, and one event patch on `READY`. -/
def c7Config : GatewayConfig :=
  { packets := [(2, { outbound := some (fun fr => { fr with d := fr.d * 2 }) })],
    events := [("READY".toList, { inbound := some (fun fr => { fr with d := fr.d + 1 }) })] }

/-- C7 (witness): the four pass-through cases at concrete frames over
`c7Config`: a frame with no `op` field (both paths), an outbound frame
with opcode 3 (no patch), an inbound non-dispatch frame with opcode 2
(patch without inbound hook), and an inbound dispatch frame named `C`
(no packet patch on opcode 0, no event patch for `C`). -/
theorem c7_unpatched_passthrough_witness :
    ((Frame.mk none none 5 none).op = none
     ∧ patchShardSend c7Config (Frame.mk none none 5 none) = Frame.mk none none 5 none
     ∧ patchShardDeliver c7Config (Frame.mk none none 5 none) = Frame.mk none none 5 none)
    ∧ patchShardSend c7Config (Frame.mk (some 3) none 5 none) = Frame.mk (some 3) none 5 none
    ∧ patchShardDeliver c7Config (Frame.mk (some 2) none 5 none) = Frame.mk (some 2) none 5 none
    ∧ patchShardDeliver c7Config (Frame.mk (some 0) (some "C".toList) 5 none)
        = Frame.mk (some 0) (some "C".toList) 5 none :=
  ⟨⟨rfl,
    ((c7_unpatched_passthrough c7Config (Frame.mk none none 5 none)).1 rfl).1,
    ((c7_unpatched_passthrough c7Config (Frame.mk none none 5 none)).1 rfl).2⟩,
   (c7_unpatched_passthrough c7Config (Frame.mk (some 3) none 5 none)).2.1 3 rfl rfl,
   (c7_unpatched_passthrough c7Config (Frame.mk (some 2) none 5 none)).2.2.1 2 rfl rfl
     (by decide),
   (c7_unpatched_passthrough c7Config (Frame.mk (some 0) (some "C".toList) 5 none)).2.2.2 0 rfl
     rfl (by intro t ht; injection ht with h; subst h; rfl)⟩

/-- C6: with the default route patches, a request for the gateway-bot
route is redirected to the generic gateway route (the underlying request
function is invoked at the redirected route), and when the underlying
response has neither a `shards` nor a `session_start_limit` field, the
result reads `shards = 1` and a `session_start_limit` with
`remaining = 1` and `max_concurrency = 1`, while every field of the
underlying response reads through unmodified (real fields shadow the
synthesized ones, which sit before the spread of the response). -/
theorem c6_gateway_bot_redirect (req : RestRequest) (res : JObj)
    (original : RestRequest → Except JsErr JObj)
    (hroute : req.fullRoute = gatewayBotRoute)
    (horig : original { req with fullRoute := gatewayRoute } = .ok res)
    (h1 : objGet res "shards".toList = none)
    (h2 : objGet res "session_start_limit".toList = none) :
    patchedRequest DEFAULT_ROUTE_PATCHES original req = .ok (gatewayBotSynth ++ res)
    ∧ objGet (gatewayBotSynth ++ res) "shards".toList = some (JVal.vint 1)
    ∧ objGet (gatewayBotSynth ++ res) "session_start_limit".toList
        = some (JVal.vobj sessionStartLimitSynth)
    ∧ objGet sessionStartLimitSynth "remaining".toList = some (JVal.vint 1)
    ∧ objGet sessionStartLimitSynth "max_concurrency".toList = some (JVal.vint 1)
    ∧ (∀ k v, objGet res k = some v → objGet (gatewayBotSynth ++ res) k = some v) := by
  have hl : lookupRoutePatch DEFAULT_ROUTE_PATCHES req.fullRoute = some gatewayBotPatch := by
    rw [hroute]
    rfl
  have hredir : applyRedirect (some gatewayBotPatch) req = { req with fullRoute := gatewayRoute } := by
    unfold applyRedirect
    show (if gatewayRoute = [] then req else { req with fullRoute := gatewayRoute }) = _
    rw [if_neg (by decide)]
  refine ⟨?_, ?_, ?_, rfl, rfl, ?_⟩
  · unfold patchedRequest
    rw [hl, hredir]
    show (match original { req with fullRoute := gatewayRoute } with
          | Except.error e => Except.error e
          | Except.ok result =>
            match (some gatewayBotPatch).bind (fun p => p.post) with
            | some g => g { req with fullRoute := gatewayRoute } result
            | none => Except.ok result) = Except.ok (gatewayBotSynth ++ res)
    rw [horig]
    rfl
  · rw [objGet_append_of_none gatewayBotSynth res "shards".toList h1]
    rfl
  · rw [objGet_append_of_none gatewayBotSynth res "session_start_limit".toList h2]
    rfl
  · intro k v h
    exact objGet_append_right gatewayBotSynth res k v h

/-- The C6 witness underlying response: a bare `/gateway` response with
only a `url` field. -/
def c6Response : JObj := [("url".toList, JVal.vstr "wss://gateway.discord.gg".toList)]

/-- The C6 witness underlying request function: answers only the generic
gateway route. -/
def c6Original : RestRequest → Except JsErr JObj :=
  fun r => if r.fullRoute = gatewayRoute then .ok c6Response else .error (.thrown 0)

/-- C6 (witness): the theorem applied to a concrete gateway-bot request
over an underlying response holding only a `url` field. -/
theorem c6_gateway_bot_redirect_witness :
    (RestRequest.mk gatewayBotRoute "GET".toList 0).fullRoute = gatewayBotRoute
    ∧ c6Original { RestRequest.mk gatewayBotRoute "GET".toList 0 with fullRoute := gatewayRoute }
        = .ok c6Response
    ∧ patchedRequest DEFAULT_ROUTE_PATCHES c6Original (RestRequest.mk gatewayBotRoute "GET".toList 0)
        = .ok (gatewayBotSynth ++ c6Response)
    ∧ objGet (gatewayBotSynth ++ c6Response) "shards".toList = some (JVal.vint 1) :=
  ⟨rfl, by unfold c6Original; rw [if_pos rfl],
   (c6_gateway_bot_redirect (RestRequest.mk gatewayBotRoute "GET".toList 0) c6Response c6Original
      rfl (by unfold c6Original; rw [if_pos rfl]) rfl rfl).1,
   (c6_gateway_bot_redirect (RestRequest.mk gatewayBotRoute "GET".toList 0) c6Response c6Original
      rfl (by unfold c6Original; rw [if_pos rfl]) rfl rfl).2.1⟩

/-- C8: when a patch's `pre`, `post`, or `resolve` callback throws, the
intercepted request (respectively resolve) operation propagates exactly
that exception to its caller — the interception layer neither catches,
wraps, nor retries. -/
theorem c8_hook_exceptions_propagate :
    (∀ (routes : List (Str × RoutePatch)) (original : RestRequest → Except JsErr JObj)
        (options : RestRequest) (p : RoutePatch) (f : RestRequest → Except JsErr RestRequest)
        (e : JsErr),
        lookupRoutePatch routes options.fullRoute = some p → p.pre = some f →
        f (applyRedirect (some p) options) = .error e →
        patchedRequest routes original options = .error e)
    ∧ (∀ (routes : List (Str × RoutePatch)) (original : RestRequest → Except JsErr JObj)
        (options : RestRequest) (p : RoutePatch)
        (g : RestRequest → JObj → Except JsErr JObj) (o2 : RestRequest) (res : JObj) (e : JsErr),
        lookupRoutePatch routes options.fullRoute = some p →
        applyPre (some p) (applyRedirect (some p) options) = .ok o2 →
        original o2 = .ok res → p.post = some g → g o2 res = .error e →
        patchedRequest routes original options = .error e)
    ∧ (∀ (routes : List (Str × RoutePatch)) (ua : Str)
        (original : RestRequest → Except JsErr Resolved) (options : RestRequest)
        (p : RoutePatch) (f : RestRequest → Resolved → Except JsErr Resolved)
        (r : Resolved) (e : JsErr),
        lookupRoutePatch routes options.fullRoute = some p → p.resolve = some f →
        original options = .ok r → f options r = .error e →
        resolveRequestPipeline routes ua original options = .error e) := by
  refine ⟨?_, ?_, ?_⟩
  · intro routes original options p f e hlk hpre hf
    unfold patchedRequest
    rw [hlk]
    have hap : applyPre (some p) (applyRedirect (some p) options) = .error e := by
      unfold applyPre
      show (match p.pre with
            | some f1 => f1 (applyRedirect (some p) options)
            | none => Except.ok (applyRedirect (some p) options)) = Except.error e
      rw [hpre]
      exact hf
    rw [hap]
  · intro routes original options p g o2 res e hlk hpre horig hpost hg
    unfold patchedRequest
    rw [hlk, hpre]
    show (match original o2 with
          | Except.error e1 => Except.error e1
          | Except.ok result =>
            match (some p).bind (fun q => q.post) with
            | some g1 => g1 o2 result
            | none => Except.ok result) = Except.error e
    rw [horig]
    show (match p.post with
          | some g1 => g1 o2 res
          | none => Except.ok res) = Except.error e
    rw [hpost]
    exact hg
  · intro routes ua original options p f r e hlk hres horig hf
    unfold resolveRequestPipeline patchedResolveRequest
    rw [horig]
    show (match (match (lookupRoutePatch routes options.fullRoute).bind (fun q => q.resolve) with
                 | some f1 => f1 options r
                 | none => Except.ok r) with
          | Except.error e1 => Except.error e1
          | Except.ok r1 => wrapResolveRequestStep ua r1) = Except.error e
    rw [hlk]
    show (match (match p.resolve with
                 | some f1 => f1 options r
                 | none => Except.ok r) with
          | Except.error e1 => Except.error e1
          | Except.ok r1 => wrapResolveRequestStep ua r1) = Except.error e
    rw [hres]
    show (match f options r with
          | Except.error e1 => Except.error e1
          | Except.ok r1 => wrapResolveRequestStep ua r1) = Except.error e
    rw [hf]

/-- A patch whose `pre` hook throws (C8 witness). -/
def throwingPrePatch : RoutePatch := { pre := some (fun _ => .error (.thrown 1)) }

/-- A patch whose `post` hook throws (C8 witness). -/
def throwingPostPatch : RoutePatch := { post := some (fun _ _ => .error (.thrown 2)) }

/-- A patch whose `resolve` hook throws (C8 witness). -/
def throwingResolvePatch : RoutePatch := { resolve := some (fun _ _ => .error (.thrown 3)) }

/-- The C8 witness request. -/
def c8Request : RestRequest := RestRequest.mk "/a".toList "GET".toList 0

/-- The C8 witness resolved form. -/
def c8Resolved : Resolved := Resolved.mk "https://x".toList (FetchOptions.mk Headers.hnone "GET".toList)

/-- C8 (witness): each of the three hook kinds, made to throw on a
concrete route, surfaces its own exception from the intercepted
operation. -/
theorem c8_hook_exceptions_propagate_witness :
    patchedRequest [("/a".toList, throwingPrePatch)] (fun _ => .ok []) c8Request
        = .error (.thrown 1)
    ∧ patchedRequest [("/a".toList, throwingPostPatch)] (fun _ => .ok []) c8Request
        = .error (.thrown 2)
    ∧ resolveRequestPipeline [("/a".toList, throwingResolvePatch)] DEFAULT_USER_AGENT
        (fun _ => .ok c8Resolved) c8Request = .error (.thrown 3) :=
  ⟨c8_hook_exceptions_propagate.1 [("/a".toList, throwingPrePatch)] (fun _ => .ok []) c8Request
     throwingPrePatch (fun _ => .error (.thrown 1)) (.thrown 1) rfl rfl rfl,
   c8_hook_exceptions_propagate.2.1 [("/a".toList, throwingPostPatch)] (fun _ => .ok []) c8Request
     throwingPostPatch (fun _ _ => .error (.thrown 2)) c8Request [] (.thrown 2) rfl rfl rfl rfl rfl,
   c8_hook_exceptions_propagate.2.2 [("/a".toList, throwingResolvePatch)] DEFAULT_USER_AGENT
     (fun _ => .ok c8Resolved) c8Request throwingResolvePatch (fun _ _ => .error (.thrown 3))
     c8Resolved (.thrown 3) rfl rfl rfl rfl⟩

/-- The C2 failing input: a resolved request whose headers arrive as the
string list `["Content-Type: application/json"]`. -/
def c2Resolved : Resolved :=
  Resolved.mk "https://discord.com/api/v10/channels/1".toList
    (FetchOptions.mk (Headers.harr ["Content-Type: application/json".toList]) "GET".toList)

/-- The C2 request (a route with no applicable patch). -/
def c2Request : RestRequest := RestRequest.mk "/channels/1".toList "GET".toList 0

/-- C2 (code evaluation at the failing input): with the default patches,
resolving a request whose headers arrive as a string list emits the
resolved request *unchanged* — still carrying the header array, with no
`User-Agent` entry — because `wrapResolveRequest` builds the normalized
mapping (and sets `User-Agent` on it) only in a local variable that is
never written back into `result.fetchOptions.headers`; the claimed
normalize-before-hooks ordering also fails, since the rest wrapper (and
its route `resolve` hooks) runs inside, and therefore before, the
user-agent wrapper. -/
theorem c2_array_headers_pass_unnormalized :
    resolveRequestPipeline DEFAULT_ROUTE_PATCHES DEFAULT_USER_AGENT
        (fun _ => .ok c2Resolved) c2Request = .ok c2Resolved
    ∧ c2Resolved.fetchOptions.headers = Headers.harr ["Content-Type: application/json".toList] := by
  exact ⟨by decide, rfl⟩

/-- C10: the default `/users/\x7b:id\x7d/` resolve hook assumes mapping
headers with an `Authorization` key: for a resolved request whose headers
are still an array of strings, and for one whose mapping lacks the key,
the hook's `undefined.replace` throws a `TypeError` that propagates out
of the intercepted resolve operation. -/
theorem c10_profile_hook_type_error :
    resolveRequestPipeline DEFAULT_ROUTE_PATCHES DEFAULT_USER_AGENT
        (fun _ => .ok (Resolved.mk "https://discord.com/api/v10/users/42/".toList
          (FetchOptions.mk (Headers.harr ["Authorization: Bearer tok".toList]) "GET".toList)))
        (RestRequest.mk "/users/42/".toList "GET".toList 0)
      = .error (.typeError "Cannot read properties of undefined (reading 'replace')")
    ∧ resolveRequestPipeline DEFAULT_ROUTE_PATCHES DEFAULT_USER_AGENT
        (fun _ => .ok (Resolved.mk "https://discord.com/api/v10/users/42/".toList
          (FetchOptions.mk (Headers.hmap [("Content-Type".toList, "application/json".toList)])
            "GET".toList)))
        (RestRequest.mk "/users/42/".toList "GET".toList 0)
      = .error (.typeError "Cannot read properties of undefined (reading 'replace')") := by
  exact ⟨by decide, by decide⟩
